import Mathlib

/-!
Shallow embedding of the async job-creation client in
`cmd/api-tester/main.go` of scheduler0/api.scheduler0.com.

The HTTP layer is modelled by oracles: the submission response is a value of
`SubmitResponse`, the i-th poll of the async-task resource yields `poll i`,
and the two JSON decoders from `encoding/json` (the task-envelope decoder and
the job-list decoder) are parameters, since they are library code. Everything
the repository's own code does — status checks, `Location` handling,
`strings.Split`, the 30-iteration polling loop with its `time.Sleep`, the
state switch, and each `return` site — is translated literally. `time.Sleep`
and each `getAsyncTask` call are recorded in an event trace so that temporal
claims about the loop can be stated.
-/

/-- Header-name constants from `main.go` lines 16–20. -/
def APIKeyHeader : String := "x-api-key"

/-- Header-name constant `x-secret-key` from `main.go` line 18. -/
def APISecretHeader : String := "x-secret-key"

/-- Header-name constant `x-account-id` from `main.go` line 19. -/
def AccountIDHeader : String := "x-account-id"

/-- The `Job` record (`main.go` lines 68–85). Go `uint64` is modelled as
`Nat` and `time.Time` as its JSON string form. -/
structure Job where
  id : Nat
  accountID : Nat
  projectID : Nat
  description : String
  executorID : Nat
  jobData : String
  spec : String
  startDate : String
  endDate : String
  timezone : String
  dateCreated : String
  dateModified : String
  dateDeleted : String
  createdBy : String
  modifiedBy : String
  deletedBy : String
deriving Repr, DecidableEq

/-- The `AsyncTask` record (`main.go` lines 102–110); `State` is a Go `int`,
modelled as `Int`. -/
structure AsyncTask where
  id : Nat
  requestId : String
  input : String
  output : String
  service : String
  state : Int
  dateCreated : String
deriving Repr, DecidableEq

/-- The `AsyncTaskResponse` envelope (`main.go` lines 112–115). -/
structure AsyncTaskResponse where
  success : Bool
  taskData : AsyncTask
deriving Repr, DecidableEq

/-- The HTTP response to the bulk job-creation POST, as `createJobs` reads
it: status code, body, and the value of `resp.Header.Get("Location")` —
Go's `Header.Get` returns the empty string when the header is absent. -/
structure SubmitResponse where
  statusCode : Nat
  body : String
  location : String
deriving Repr, DecidableEq

/-- The HTTP response to one GET of the async-task resource, as
`getAsyncTask` reads it. -/
structure PollResponse where
  statusCode : Nat
  body : String
deriving Repr, DecidableEq

/-- The error cases of `createJobs`, one constructor per `return nil, ...`
site in `main.go` lines 554–628; each carries the data interpolated into the
corresponding `fmt.Errorf` call. -/
inductive CreateJobsError where
  | unexpectedStatus (body : String)
  | missingLocationHeader
  | malformedLocationHeader (location : String)
  | pollFetchError (msg : String)
  | decodeError (msg : String)
  | operationFailed (output : String)
  | unknownState (state : Int)
  | timeout
deriving Repr, DecidableEq

/-- The Go return pair `([]Job, error)` of `createJobs`: a nil-able slice
and a nil-able error, each `return` site filling exactly one of the two. -/
structure CreateJobsResult where
  jobs : Option (List Job)
  err : Option CreateJobsError
deriving Repr, DecidableEq

/-- One observable event of the polling loop: a `time.Sleep(time.Second)`
call, or the `getAsyncTask` call of iteration `i`. -/
inductive PollEvent where
  | sleep
  | fetch (i : Nat)
deriving Repr, DecidableEq

/-- Accumulator loop of `goSplit`: walk the characters, cutting at each
separator, exactly as Go's `strings.Split` does for a one-character
separator. -/
def goSplitAux (sep : Char) : List Char → List Char → List String
  | [], acc => [String.mk acc.reverse]
  | c :: cs, acc =>
      if c = sep then String.mk acc.reverse :: goSplitAux sep cs []
      else goSplitAux sep cs (c :: acc)

/-- Go's `strings.Split(s, sep)` for a one-character separator, as used at
`main.go` line 596 with `sep = "/"`: splits around every occurrence of the
separator, so `goSplit "" '/' = [""]` and `goSplit "/a/b" '/' = ["", "a", "b"]`. -/
def goSplit (s : String) (sep : Char) : List String :=
  goSplitAux sep s.data []

/-- Lines 589–600 of `createJobs`: read the `Location` value (empty means
the header was absent), split it on `/`, demand exactly three parts, and
take `parts[2]` as the request id. -/
def extractRequestId (location : String) : Except CreateJobsError String :=
  if location = "" then
    Except.error CreateJobsError.missingLocationHeader
  else
    match goSplit location '/' with
    | [_, _, requestID] => Except.ok requestID
    | _ => Except.error (CreateJobsError.malformedLocationHeader location)

/-- `getAsyncTask` (`main.go` lines 630–663) given the HTTP response of the
GET: a non-200 status yields the error `"failed to get async task: <body>"`;
otherwise the body is decoded as an `AsyncTaskResponse` by the
`encoding/json` stand-in `parseTask` and the `Data` field is returned. -/
def getAsyncTask (parseTask : String → Except String AsyncTaskResponse)
    (resp : PollResponse) : Except String AsyncTask :=
  if resp.statusCode ≠ 200 then
    Except.error ("failed to get async task: " ++ resp.body)
  else
    match parseTask resp.body with
    | Except.error e => Except.error e
    | Except.ok r => Except.ok r.taskData

/-- The polling loop of `createJobs` (`main.go` lines 604–627) with the
statement after the loop as the `0` case: `i` is the loop index, the second
argument the remaining iterations (`30 - i` at entry). Each iteration sleeps
one second, fetches the task, and switches on `task.State` in source order:
`2` decodes the output with the `encoding/json` stand-in `dec`, `3` fails
with the output as message, `0, 1` continue, anything else fails as an
unknown state. The returned list records the sleeps and fetches in order. -/
def pollFrom (f : Nat → Except String AsyncTask)
    (dec : String → Except String (List Job)) :
    Nat → Nat → List PollEvent × CreateJobsResult
  | _, 0 => ([], { jobs := none, err := some CreateJobsError.timeout })
  | i, n + 1 =>
      match f i with
      | Except.error e =>
          ([PollEvent.sleep, PollEvent.fetch i],
           { jobs := none,
             err := some (CreateJobsError.pollFetchError
               ("failed to check async task status: " ++ e)) })
      | Except.ok task =>
          if task.state = 2 then
            match dec task.output with
            | Except.error e =>
                ([PollEvent.sleep, PollEvent.fetch i],
                 { jobs := none,
                   err := some (CreateJobsError.decodeError
                     ("failed to parse jobs from async task output: " ++ e)) })
            | Except.ok createdJobs =>
                ([PollEvent.sleep, PollEvent.fetch i],
                 { jobs := some createdJobs, err := none })
          else if task.state = 3 then
            ([PollEvent.sleep, PollEvent.fetch i],
             { jobs := none,
               err := some (CreateJobsError.operationFailed task.output) })
          else if task.state = 0 ∨ task.state = 1 then
            let rest := pollFrom f dec (i + 1) n
            (PollEvent.sleep :: PollEvent.fetch i :: rest.1, rest.2)
          else
            ([PollEvent.sleep, PollEvent.fetch i],
             { jobs := none,
               err := some (CreateJobsError.unknownState task.state) })

/-- `createJobs` (`main.go` lines 554–628) from the submission response on:
a status other than 202 fails with the body; then the `Location` header is
checked and split; then the task is polled for at most 30 iterations. The
first component is the polling loop's event trace. -/
def createJobs (parseTask : String → Except String AsyncTaskResponse)
    (dec : String → Except String (List Job))
    (resp : SubmitResponse) (poll : Nat → PollResponse) :
    List PollEvent × CreateJobsResult :=
  if resp.statusCode ≠ 202 then
    ([], { jobs := none, err := some (CreateJobsError.unexpectedStatus resp.body) })
  else
    match extractRequestId resp.location with
    | Except.error e => ([], { jobs := none, err := some e })
    | Except.ok _requestID =>
        pollFrom (fun i => getAsyncTask parseTask (poll i)) dec 0 30

/-- Whether a poll event is a `getAsyncTask` call. -/
def isFetch : PollEvent → Bool
  | PollEvent.fetch _ => true
  | PollEvent.sleep => false

/-- Number of `getAsyncTask` calls recorded in a trace. -/
def fetchCount (evs : List PollEvent) : Nat :=
  (evs.filter isFetch).length

/-- Number of `time.Sleep(time.Second)` calls recorded in a trace. -/
def sleepCount (evs : List PollEvent) : Nat :=
  (evs.filter fun e => !isFetch e).length

/-- The trace of `k` consecutive non-terminal iterations starting at loop
index `i`: sleep, fetch `i`, sleep, fetch `i+1`, … -/
def pendingEvents : Nat → Nat → List PollEvent
  | _, 0 => []
  | i, k + 1 => PollEvent.sleep :: PollEvent.fetch i :: pendingEvents (i + 1) k

/-- The fetch oracle observes a non-terminal task state at index `j`. -/
def fetchNonTerminal (f : Nat → Except String AsyncTask) (j : Nat) : Prop :=
  ∃ t, f j = Except.ok t ∧ (t.state = 0 ∨ t.state = 1)

/-- An outgoing HTTP request as the source builds it: method, URL, the
header pairs in the order the `req.Header.Set` calls run, and the request
body (`none` for GET/DELETE; for mutating calls the `json.Marshal` output,
passed in since `encoding/json` is library code). -/
structure HttpRequest where
  method : String
  url : String
  headers : List (String × String)
  body : Option String
deriving Repr, DecidableEq

/-- The request built by `createCredential` (`main.go` lines 287–300);
`json.Marshal` of the empty map is the literal two-brace object. -/
def createCredentialRequest (host apiKey apiSecret accountID : String) : HttpRequest :=
  { method := "POST", url := host ++ "/api/v1/credentials",
    headers := [("Content-Type", "application/json"), (APIKeyHeader, apiKey),
                (APISecretHeader, apiSecret), (AccountIDHeader, accountID)],
    body := some "\x7b\x7d" }

/-- The request built by `getAllCredentials` (`main.go` lines 326–335). -/
def getAllCredentialsRequest (host apiKey apiSecret accountID : String)
    (limit offset : Int) : HttpRequest :=
  { method := "GET",
    url := host ++ "/api/v1/credentials?limit=" ++ toString limit ++
           "&offset=" ++ toString offset,
    headers := [(APIKeyHeader, apiKey), (APISecretHeader, apiSecret),
                (AccountIDHeader, accountID)],
    body := none }

/-- The request built by `updateCredential` (`main.go` lines 361–376). -/
def updateCredentialRequest (host apiKey apiSecret accountID : String)
    (credentialID : Nat) (jsonBody : String) : HttpRequest :=
  { method := "PUT", url := host ++ "/api/v1/credentials/" ++ toString credentialID,
    headers := [("Content-Type", "application/json"), (APIKeyHeader, apiKey),
                (APISecretHeader, apiSecret), (AccountIDHeader, accountID)],
    body := some jsonBody }

/-- The request built by `deleteCredential` (`main.go` lines 393–402). -/
def deleteCredentialRequest (host apiKey apiSecret accountID : String)
    (credentialID : Nat) : HttpRequest :=
  { method := "DELETE", url := host ++ "/api/v1/credentials/" ++ toString credentialID,
    headers := [(APIKeyHeader, apiKey), (APISecretHeader, apiSecret),
                (AccountIDHeader, accountID)],
    body := none }

/-- The request built by `createProject` (`main.go` lines 419–435). -/
def createProjectRequest (host apiKey apiSecret accountID : String)
    (jsonBody : String) : HttpRequest :=
  { method := "POST", url := host ++ "/api/v1/projects",
    headers := [("Content-Type", "application/json"), (APIKeyHeader, apiKey),
                (APISecretHeader, apiSecret), (AccountIDHeader, accountID)],
    body := some jsonBody }

/-- The request built by `getAllProjects` (`main.go` lines 461–470). -/
def getAllProjectsRequest (host apiKey apiSecret accountID : String)
    (limit offset : Int) : HttpRequest :=
  { method := "GET",
    url := host ++ "/api/v1/projects?limit=" ++ toString limit ++
           "&offset=" ++ toString offset,
    headers := [(APIKeyHeader, apiKey), (APISecretHeader, apiSecret),
                (AccountIDHeader, accountID)],
    body := none }

/-- The request built by `updateProject` (`main.go` lines 496–511). -/
def updateProjectRequest (host apiKey apiSecret accountID : String)
    (projectID : Nat) (jsonBody : String) : HttpRequest :=
  { method := "PUT", url := host ++ "/api/v1/projects/" ++ toString projectID,
    headers := [("Content-Type", "application/json"), (APIKeyHeader, apiKey),
                (APISecretHeader, apiSecret), (AccountIDHeader, accountID)],
    body := some jsonBody }

/-- The request built by `deleteProject` (`main.go` lines 528–537). -/
def deleteProjectRequest (host apiKey apiSecret accountID : String)
    (projectID : Nat) : HttpRequest :=
  { method := "DELETE", url := host ++ "/api/v1/projects/" ++ toString projectID,
    headers := [(APIKeyHeader, apiKey), (APISecretHeader, apiSecret),
                (AccountIDHeader, accountID)],
    body := none }

/-- The request built by `createJobs` for the bulk submission
(`main.go` lines 554–569). -/
def createJobsRequest (host apiKey apiSecret accountID : String)
    (jsonBody : String) : HttpRequest :=
  { method := "POST", url := host ++ "/api/v1/jobs",
    headers := [("Content-Type", "application/json"), (APIKeyHeader, apiKey),
                (APISecretHeader, apiSecret), (AccountIDHeader, accountID)],
    body := some jsonBody }

/-- The request built by `getAsyncTask` for the poll fetch
(`main.go` lines 630–639). -/
def getAsyncTaskRequest (host apiKey apiSecret accountID requestID : String) : HttpRequest :=
  { method := "GET", url := host ++ "/api/v1/async-tasks/" ++ requestID,
    headers := [(APIKeyHeader, apiKey), (APISecretHeader, apiSecret),
                (AccountIDHeader, accountID)],
    body := none }

/-- The request built by `getAllJobs` (`main.go` lines 665–674). -/
def getAllJobsRequest (host apiKey apiSecret accountID : String)
    (projectID : Nat) (limit offset : Int) : HttpRequest :=
  { method := "GET",
    url := host ++ "/api/v1/jobs?projectId=" ++ toString projectID ++
           "&limit=" ++ toString limit ++ "&offset=" ++ toString offset,
    headers := [(APIKeyHeader, apiKey), (APISecretHeader, apiSecret),
                (AccountIDHeader, accountID)],
    body := none }

/-- The request built by `updateJob` (`main.go` lines 700–715). -/
def updateJobRequest (host apiKey apiSecret accountID : String)
    (jobID : Nat) (jsonBody : String) : HttpRequest :=
  { method := "PUT", url := host ++ "/api/v1/jobs/" ++ toString jobID,
    headers := [("Content-Type", "application/json"), (APIKeyHeader, apiKey),
                (APISecretHeader, apiSecret), (AccountIDHeader, accountID)],
    body := some jsonBody }

/-- The request built by `deleteJob` (`main.go` lines 732–741). -/
def deleteJobRequest (host apiKey apiSecret accountID : String)
    (jobID : Nat) : HttpRequest :=
  { method := "DELETE", url := host ++ "/api/v1/jobs/" ++ toString jobID,
    headers := [(APIKeyHeader, apiKey), (APISecretHeader, apiSecret),
                (AccountIDHeader, accountID)],
    body := none }

/-- A request carries the three authentication headers with the given
values. -/
def carriesAuthHeaders (r : HttpRequest) (apiKey apiSecret accountID : String) : Prop :=
  (APIKeyHeader, apiKey) ∈ r.headers ∧ (APISecretHeader, apiSecret) ∈ r.headers ∧
    (AccountIDHeader, accountID) ∈ r.headers

/-- Modelled from the spec's words: a `Location` value matches the
two-segment path shape of a slash, a slash-free resource segment, a slash,
and a slash-free request id. Written from the spec's shape description, to
be compared with what the source actually checks. -/
def matchesLocationShape (s : String) : Prop :=
  ∃ r q : List Char, (∀ c ∈ r, c ≠ '/') ∧ (∀ c ∈ q, c ≠ '/') ∧
    s.data = '/' :: (r ++ '/' :: q)

/-- Accumulator for `sleepsOnlyBetweenFetches`: the flag records whether a
fetch has already occurred. -/
def betweenAux : Bool → List PollEvent → Bool
  | _, [] => true
  | seen, PollEvent.sleep :: rest => seen && rest.any isFetch && betweenAux seen rest
  | _, PollEvent.fetch _ :: rest => betweenAux true rest

/-- Every sleep in the trace lies strictly between two fetches: some fetch
occurs before it and some fetch after it. -/
def sleepsOnlyBetweenFetches (evs : List PollEvent) : Bool :=
  betweenAux false evs

/-- A concrete async task used to instantiate theorems: state `s`, output
`out`. -/
def sampleTask (s : Int) (out : String) : AsyncTask :=
  { id := 1, requestId := "abc123", input := "", output := out,
    service := "job_executor", state := s, dateCreated := "2024-01-01T00:00:00Z" }

/-- A task-envelope decoder that always succeeds with the given task. -/
def parseConst (t : AsyncTask) : String → Except String AsyncTaskResponse :=
  fun _ => Except.ok { success := true, taskData := t }

/-- A job-list decoder that accepts exactly the empty JSON array. -/
def decSample : String → Except String (List Job) :=
  fun s => if s = "[]" then Except.ok [] else Except.error "invalid character"

/-- A 202 submission response with a well-formed `Location`. -/
def submit202 : SubmitResponse :=
  { statusCode := 202, body := "", location := "/async-tasks/abc123" }

/-- A rejected submission response. -/
def submit400 : SubmitResponse :=
  { statusCode := 400, body := "bad request", location := "" }

/-- An accepted submission response with no `Location` header. -/
def submitNoLocation : SubmitResponse :=
  { statusCode := 202, body := "", location := "" }

/-- A poll oracle whose every fetch returns 200. -/
def poll200 : Nat → PollResponse := fun _ => { statusCode := 200, body := "ignored" }

/-- A poll oracle whose every fetch returns 500. -/
def poll500 : Nat → PollResponse := fun _ => { statusCode := 500, body := "server blew up" }

/-- Unfolding step: a fetch error ends the loop at once. -/
lemma pollFrom_fetchError_step (f : Nat → Except String AsyncTask)
    (dec : String → Except String (List Job)) (i n : Nat) (e : String)
    (hft : f i = Except.error e) :
    pollFrom f dec i (n + 1) =
      ([PollEvent.sleep, PollEvent.fetch i],
       { jobs := none,
         err := some (CreateJobsError.pollFetchError
           ("failed to check async task status: " ++ e)) }) := by
  simp [pollFrom, hft]

/-- Unfolding step: state 2 with a decodable output returns the jobs. -/
lemma pollFrom_success_step (f : Nat → Except String AsyncTask)
    (dec : String → Except String (List Job)) (i n : Nat) (t : AsyncTask)
    (js : List Job) (hft : f i = Except.ok t) (h2 : t.state = 2)
    (hdec : dec t.output = Except.ok js) :
    pollFrom f dec i (n + 1) =
      ([PollEvent.sleep, PollEvent.fetch i], { jobs := some js, err := none }) := by
  simp [pollFrom, hft, h2, hdec]

/-- Unfolding step: state 2 with an undecodable output fails with a decode
error. -/
lemma pollFrom_decodeError_step (f : Nat → Except String AsyncTask)
    (dec : String → Except String (List Job)) (i n : Nat) (t : AsyncTask)
    (e : String) (hft : f i = Except.ok t) (h2 : t.state = 2)
    (hdec : dec t.output = Except.error e) :
    pollFrom f dec i (n + 1) =
      ([PollEvent.sleep, PollEvent.fetch i],
       { jobs := none,
         err := some (CreateJobsError.decodeError
           ("failed to parse jobs from async task output: " ++ e)) }) := by
  simp [pollFrom, hft, h2, hdec]

/-- Unfolding step: state 3 fails with the task's output as the message. -/
lemma pollFrom_failed_step (f : Nat → Except String AsyncTask)
    (dec : String → Except String (List Job)) (i n : Nat) (t : AsyncTask)
    (hft : f i = Except.ok t) (h3 : t.state = 3) :
    pollFrom f dec i (n + 1) =
      ([PollEvent.sleep, PollEvent.fetch i],
       { jobs := none, err := some (CreateJobsError.operationFailed t.output) }) := by
  have h2 : ¬ t.state = 2 := by simp [h3]
  simp [pollFrom, hft, h2, h3]

/-- Unfolding step: a state outside 0–3 fails as an unknown state. -/
lemma pollFrom_unknown_step (f : Nat → Except String AsyncTask)
    (dec : String → Except String (List Job)) (i n : Nat) (t : AsyncTask)
    (hft : f i = Except.ok t) (h0 : ¬ t.state = 0) (h1 : ¬ t.state = 1)
    (h2 : ¬ t.state = 2) (h3 : ¬ t.state = 3) :
    pollFrom f dec i (n + 1) =
      ([PollEvent.sleep, PollEvent.fetch i],
       { jobs := none, err := some (CreateJobsError.unknownState t.state) }) := by
  simp [pollFrom, hft, h0, h1, h2, h3]

/-- Unfolding step: a non-terminal state sleeps and moves on to the next
iteration. -/
lemma pollFrom_nonterminal_step (f : Nat → Except String AsyncTask)
    (dec : String → Except String (List Job)) (i n : Nat) (t : AsyncTask)
    (hft : f i = Except.ok t) (hst : t.state = 0 ∨ t.state = 1) :
    pollFrom f dec i (n + 1) =
      (PollEvent.sleep :: PollEvent.fetch i :: (pollFrom f dec (i + 1) n).1,
       (pollFrom f dec (i + 1) n).2) := by
  have h2 : ¬ t.state = 2 := by rcases hst with h | h <;> simp [h]
  have h3 : ¬ t.state = 3 := by rcases hst with h | h <;> simp [h]
  simp [pollFrom, hft, h2, h3, hst]

/-- Running the loop over `k` non-terminal iterations prepends the pending
trace and leaves the loop at index `i + k` with `r` iterations left. -/
lemma pollFrom_skip (f : Nat → Except String AsyncTask)
    (dec : String → Except String (List Job)) :
    ∀ (k i r : Nat), (∀ j, j < k → fetchNonTerminal f (i + j)) →
    pollFrom f dec i (k + r) =
      (pendingEvents i k ++ (pollFrom f dec (i + k) r).1,
       (pollFrom f dec (i + k) r).2) := by
  intro k
  induction k with
  | zero =>
      intro i r _
      simp [pendingEvents]
  | succ m ih =>
      intro i r hpre
      obtain ⟨t, hft, hst⟩ := hpre 0 (Nat.succ_pos m)
      have hft' : f i = Except.ok t := by simpa using hft
      have hn : m + 1 + r = (m + r) + 1 := by omega
      rw [hn, pollFrom_nonterminal_step f dec i (m + r) t hft' hst]
      have hpre' : ∀ j, j < m → fetchNonTerminal f (i + 1 + j) := by
        intro j hj
        have := hpre (j + 1) (by omega)
        have harith : i + (j + 1) = i + 1 + j := by omega
        rwa [harith] at this
      rw [ih (i + 1) r hpre']
      have harith2 : i + 1 + m = i + (m + 1) := by omega
      simp [pendingEvents, harith2]

/-- The loop's trace is always an alternation of sleeps and fetches: a
sleep immediately precedes every fetch, the fetch indices are consecutive
from the entry index, and nothing else is recorded. -/
lemma pollFrom_trace (f : Nat → Except String AsyncTask)
    (dec : String → Except String (List Job)) :
    ∀ (n i : Nat), ∃ m, m ≤ n ∧ (pollFrom f dec i n).1 = pendingEvents i m := by
  intro n
  induction n with
  | zero =>
      intro i
      exact ⟨0, Nat.le_refl 0, rfl⟩
  | succ n ih =>
      intro i
      cases hft : f i with
      | error e =>
          refine ⟨1, by omega, ?_⟩
          rw [pollFrom_fetchError_step f dec i n e hft]
          simp [pendingEvents]
      | ok t =>
          by_cases h2 : t.state = 2
          · cases hdec : dec t.output with
            | error e =>
                refine ⟨1, by omega, ?_⟩
                rw [pollFrom_decodeError_step f dec i n t e hft h2 hdec]
                simp [pendingEvents]
            | ok js =>
                refine ⟨1, by omega, ?_⟩
                rw [pollFrom_success_step f dec i n t js hft h2 hdec]
                simp [pendingEvents]
          · by_cases h3 : t.state = 3
            · refine ⟨1, by omega, ?_⟩
              rw [pollFrom_failed_step f dec i n t hft h3]
              simp [pendingEvents]
            · by_cases hst : t.state = 0 ∨ t.state = 1
              · obtain ⟨m, hm, htr⟩ := ih (i + 1)
                refine ⟨m + 1, by omega, ?_⟩
                rw [pollFrom_nonterminal_step f dec i n t hft hst]
                simp [pendingEvents, htr]
              · refine ⟨1, by omega, ?_⟩
                push_neg at hst
                rw [pollFrom_unknown_step f dec i n t hft hst.1 hst.2 h2 h3]
                simp [pendingEvents]

/-- The pending trace of `m` iterations records exactly `m` fetches. -/
lemma fetchCount_pendingEvents : ∀ (i m : Nat), fetchCount (pendingEvents i m) = m := by
  intro i m
  induction m generalizing i with
  | zero => rfl
  | succ k ih => simp [pendingEvents, fetchCount, isFetch, List.filter] at ih ⊢; exact ih (i + 1)

/-- The pending trace of `m` iterations records exactly `m` sleeps. -/
lemma sleepCount_pendingEvents : ∀ (i m : Nat), sleepCount (pendingEvents i m) = m := by
  intro i m
  induction m generalizing i with
  | zero => rfl
  | succ k ih => simp [pendingEvents, sleepCount, isFetch, List.filter] at ih ⊢; exact ih (i + 1)

/-- Appending one terminal iteration to a pending trace gives the pending
trace one longer. -/
lemma pendingEvents_append_pair :
    ∀ (m i : Nat),
    pendingEvents i m ++ [PollEvent.sleep, PollEvent.fetch (i + m)] =
      pendingEvents i (m + 1) := by
  intro m
  induction m with
  | zero => intro i; simp [pendingEvents]
  | succ k ih =>
      intro i
      have harith : i + (k + 1) = i + 1 + k := by omega
      simp [pendingEvents, harith, ih (i + 1)]

/-- Every result of the loop fills at most one side of the Go return pair:
an error is never accompanied by a job list. -/
lemma pollFrom_exclusive (f : Nat → Except String AsyncTask)
    (dec : String → Except String (List Job)) :
    ∀ (n i : Nat), (pollFrom f dec i n).2.jobs = none ∨ (pollFrom f dec i n).2.err = none := by
  intro n
  induction n with
  | zero => intro i; exact Or.inl rfl
  | succ n ih =>
      intro i
      cases hft : f i with
      | error e => rw [pollFrom_fetchError_step f dec i n e hft]; exact Or.inl rfl
      | ok t =>
          by_cases h2 : t.state = 2
          · cases hdec : dec t.output with
            | error e =>
                rw [pollFrom_decodeError_step f dec i n t e hft h2 hdec]
                exact Or.inl rfl
            | ok js =>
                rw [pollFrom_success_step f dec i n t js hft h2 hdec]
                exact Or.inr rfl
          · by_cases h3 : t.state = 3
            · rw [pollFrom_failed_step f dec i n t hft h3]; exact Or.inl rfl
            · by_cases hst : t.state = 0 ∨ t.state = 1
              · rw [pollFrom_nonterminal_step f dec i n t hft hst]; exact ih (i + 1)
              · push_neg at hst
                rw [pollFrom_unknown_step f dec i n t hft hst.1 hst.2 h2 h3]
                exact Or.inl rfl

/-- On a 202 submission response whose `Location` passes extraction,
`createJobs` is exactly the polling loop started at index 0 with budget 30. -/
lemma createJobs_eq_pollFrom (parseTask : String → Except String AsyncTaskResponse)
    (dec : String → Except String (List Job))
    (resp : SubmitResponse) (poll : Nat → PollResponse) (rid : String)
    (hstatus : resp.statusCode = 202)
    (hloc : extractRequestId resp.location = Except.ok rid) :
    createJobs parseTask dec resp poll =
      pollFrom (fun i => getAsyncTask parseTask (poll i)) dec 0 30 := by
  simp [createJobs, hstatus, hloc]

/-- With budget left, every iteration records a sleep followed by its fetch
before anything else, whatever the fetch returns. -/
lemma pollFrom_head (f : Nat → Except String AsyncTask)
    (dec : String → Except String (List Job)) (i n : Nat) :
    ∃ tail, (pollFrom f dec i (n + 1)).1 =
      PollEvent.sleep :: PollEvent.fetch i :: tail := by
  cases hft : f i with
  | error e => exact ⟨[], by rw [pollFrom_fetchError_step f dec i n e hft]⟩
  | ok t =>
      by_cases h2 : t.state = 2
      · cases hdec : dec t.output with
        | error e => exact ⟨[], by rw [pollFrom_decodeError_step f dec i n t e hft h2 hdec]⟩
        | ok js => exact ⟨[], by rw [pollFrom_success_step f dec i n t js hft h2 hdec]⟩
      · by_cases h3 : t.state = 3
        · exact ⟨[], by rw [pollFrom_failed_step f dec i n t hft h3]⟩
        · by_cases hst : t.state = 0 ∨ t.state = 1
          · exact ⟨(pollFrom f dec (i + 1) n).1,
              by rw [pollFrom_nonterminal_step f dec i n t hft hst]⟩
          · push_neg at hst
            exact ⟨[], by rw [pollFrom_unknown_step f dec i n t hft hst.1 hst.2 h2 h3]⟩

/-- Every return site of `createJobs` fills at most one side of the Go
return pair. -/
lemma createJobs_exclusive (parseTask : String → Except String AsyncTaskResponse)
    (dec : String → Except String (List Job))
    (resp : SubmitResponse) (poll : Nat → PollResponse) :
    (createJobs parseTask dec resp poll).2.jobs = none ∨
      (createJobs parseTask dec resp poll).2.err = none := by
  unfold createJobs
  split
  · exact Or.inl rfl
  · split
    · exact Or.inl rfl
    · exact pollFrom_exclusive _ dec 30 0

/-- Claim C1: in every polling run whose first terminal observation is a
task in state Success (2), the poller stops polling at that attempt and
returns the job list decoded from the task's `output` string, or fails with
a decode error when that string does not decode. -/
theorem createJobs_success_decode
    (parseTask : String → Except String AsyncTaskResponse)
    (dec : String → Except String (List Job))
    (resp : SubmitResponse) (poll : Nat → PollResponse)
    (rid : String) (k : Nat) (t : AsyncTask)
    (hstatus : resp.statusCode = 202)
    (hloc : extractRequestId resp.location = Except.ok rid)
    (hk : k < 30)
    (hpre : ∀ j, j < k → fetchNonTerminal (fun i => getAsyncTask parseTask (poll i)) j)
    (hfetch : getAsyncTask parseTask (poll k) = Except.ok t)
    (hstate : t.state = 2) :
    (∀ js, dec t.output = Except.ok js →
      createJobs parseTask dec resp poll =
        (pendingEvents 0 k ++ [PollEvent.sleep, PollEvent.fetch k],
         { jobs := some js, err := none })) ∧
    (∀ e, dec t.output = Except.error e →
      createJobs parseTask dec resp poll =
        (pendingEvents 0 k ++ [PollEvent.sleep, PollEvent.fetch k],
         { jobs := none,
           err := some (CreateJobsError.decodeError
             ("failed to parse jobs from async task output: " ++ e)) })) := by
  have heq := createJobs_eq_pollFrom parseTask dec resp poll rid hstatus hloc
  have h30 : (30 : Nat) = k + ((29 - k) + 1) := by omega
  have hpre' : ∀ j, j < k →
      fetchNonTerminal (fun i => getAsyncTask parseTask (poll i)) (0 + j) := by
    intro j hj
    simpa using hpre j hj
  have hskip := pollFrom_skip (fun i => getAsyncTask parseTask (poll i)) dec k 0
    ((29 - k) + 1) hpre'
  rw [Nat.zero_add] at hskip
  constructor
  · intro js hdec
    rw [heq, h30, hskip,
      pollFrom_success_step (fun i => getAsyncTask parseTask (poll i)) dec k (29 - k) t js
        hfetch hstate hdec]
  · intro e hdec
    rw [heq, h30, hskip,
      pollFrom_decodeError_step (fun i => getAsyncTask parseTask (poll i)) dec k (29 - k) t e
        hfetch hstate hdec]

/-- Concrete run for claim C1: the first fetch is already in state 2 with
output `"[]"`, and the run returns the decoded empty job list. -/
theorem createJobs_success_decode_witness :
    createJobs (parseConst (sampleTask 2 "[]")) decSample submit202 poll200 =
      (pendingEvents 0 0 ++ [PollEvent.sleep, PollEvent.fetch 0],
       { jobs := some [], err := none }) :=
  (createJobs_success_decode (parseConst (sampleTask 2 "[]")) decSample submit202 poll200
    "abc123" 0 (sampleTask 2 "[]") rfl rfl (by decide)
    (fun j hj => absurd hj (Nat.not_lt_zero j)) rfl rfl).1 [] rfl

/-- Claim C3: in every polling run whose first terminal observation is a
task in state Failed (3), the poller stops at that attempt and fails with
`operationFailed` carrying the task's literal output string; the result is
the same for every job-list decoder, so the output is never decoded. -/
theorem createJobs_failed_state
    (parseTask : String → Except String AsyncTaskResponse)
    (dec : String → Except String (List Job))
    (resp : SubmitResponse) (poll : Nat → PollResponse)
    (rid : String) (k : Nat) (t : AsyncTask)
    (hstatus : resp.statusCode = 202)
    (hloc : extractRequestId resp.location = Except.ok rid)
    (hk : k < 30)
    (hpre : ∀ j, j < k → fetchNonTerminal (fun i => getAsyncTask parseTask (poll i)) j)
    (hfetch : getAsyncTask parseTask (poll k) = Except.ok t)
    (hstate : t.state = 3) :
    createJobs parseTask dec resp poll =
      (pendingEvents 0 k ++ [PollEvent.sleep, PollEvent.fetch k],
       { jobs := none, err := some (CreateJobsError.operationFailed t.output) }) ∧
    (∀ dec', createJobs parseTask dec' resp poll = createJobs parseTask dec resp poll) := by
  have hrun : ∀ d : String → Except String (List Job),
      createJobs parseTask d resp poll =
        (pendingEvents 0 k ++ [PollEvent.sleep, PollEvent.fetch k],
         { jobs := none, err := some (CreateJobsError.operationFailed t.output) }) := by
    intro d
    have heq := createJobs_eq_pollFrom parseTask d resp poll rid hstatus hloc
    have h30 : (30 : Nat) = k + ((29 - k) + 1) := by omega
    have hpre' : ∀ j, j < k →
        fetchNonTerminal (fun i => getAsyncTask parseTask (poll i)) (0 + j) := by
      intro j hj
      simpa using hpre j hj
    have hskip := pollFrom_skip (fun i => getAsyncTask parseTask (poll i)) d k 0
      ((29 - k) + 1) hpre'
    rw [Nat.zero_add] at hskip
    rw [heq, h30, hskip,
      pollFrom_failed_step (fun i => getAsyncTask parseTask (poll i)) d k (29 - k) t
        hfetch hstate]
  exact ⟨hrun dec, fun dec' => (hrun dec').trans (hrun dec).symm⟩

/-- Concrete run for claim C3: the first fetch reports state 3 with output
`"boom"`, and the run fails with that literal message. -/
theorem createJobs_failed_state_witness :
    createJobs (parseConst (sampleTask 3 "boom")) decSample submit202 poll200 =
      (pendingEvents 0 0 ++ [PollEvent.sleep, PollEvent.fetch 0],
       { jobs := none, err := some (CreateJobsError.operationFailed "boom") }) :=
  (createJobs_failed_state (parseConst (sampleTask 3 "boom")) decSample submit202 poll200
    "abc123" 0 (sampleTask 3 "boom") rfl rfl (by decide)
    (fun j hj => absurd hj (Nat.not_lt_zero j)) rfl rfl).1

/-- Claim C5: an accepted (202) bulk-job submission whose response carries
no `Location` header fails with `missingLocationHeader` and returns no job
records. -/
theorem createJobs_missing_location
    (parseTask : String → Except String AsyncTaskResponse)
    (dec : String → Except String (List Job))
    (resp : SubmitResponse) (poll : Nat → PollResponse)
    (hstatus : resp.statusCode = 202)
    (hloc : resp.location = "") :
    createJobs parseTask dec resp poll =
      ([], { jobs := none, err := some CreateJobsError.missingLocationHeader }) := by
  simp [createJobs, hstatus, extractRequestId, hloc]

/-- Concrete run for claim C5: a 202 response with an absent `Location`
header (Go's `Header.Get` yields the empty string) fails with the missing
header error. -/
theorem createJobs_missing_location_witness :
    createJobs (parseConst (sampleTask 2 "[]")) decSample submitNoLocation poll200 =
      ([], { jobs := none, err := some CreateJobsError.missingLocationHeader }) :=
  createJobs_missing_location (parseConst (sampleTask 2 "[]")) decSample
    submitNoLocation poll200 rfl rfl

/-- Claim C6: if a poll fetch answers with a non-200 status, the whole run
aborts at that attempt with `pollFetchError` carrying the response body,
regardless of the remaining budget. -/
theorem createJobs_poll_fetch_error
    (parseTask : String → Except String AsyncTaskResponse)
    (dec : String → Except String (List Job))
    (resp : SubmitResponse) (poll : Nat → PollResponse)
    (rid : String) (k : Nat)
    (hstatus : resp.statusCode = 202)
    (hloc : extractRequestId resp.location = Except.ok rid)
    (hk : k < 30)
    (hpre : ∀ j, j < k → fetchNonTerminal (fun i => getAsyncTask parseTask (poll i)) j)
    (hbad : (poll k).statusCode ≠ 200) :
    createJobs parseTask dec resp poll =
      (pendingEvents 0 k ++ [PollEvent.sleep, PollEvent.fetch k],
       { jobs := none,
         err := some (CreateJobsError.pollFetchError
           ("failed to check async task status: " ++
             ("failed to get async task: " ++ (poll k).body))) }) := by
  have hfetch : getAsyncTask parseTask (poll k) =
      Except.error ("failed to get async task: " ++ (poll k).body) := by
    simp [getAsyncTask, hbad]
  have heq := createJobs_eq_pollFrom parseTask dec resp poll rid hstatus hloc
  have h30 : (30 : Nat) = k + ((29 - k) + 1) := by omega
  have hpre' : ∀ j, j < k →
      fetchNonTerminal (fun i => getAsyncTask parseTask (poll i)) (0 + j) := by
    intro j hj
    simpa using hpre j hj
  have hskip := pollFrom_skip (fun i => getAsyncTask parseTask (poll i)) dec k 0
    ((29 - k) + 1) hpre'
  rw [Nat.zero_add] at hskip
  rw [heq, h30, hskip,
    pollFrom_fetchError_step (fun i => getAsyncTask parseTask (poll i)) dec k (29 - k)
      ("failed to get async task: " ++ (poll k).body) hfetch]

/-- Concrete run for claim C6: the first poll fetch returns 500 and the run
aborts at once with the fetch error carrying the body. -/
theorem createJobs_poll_fetch_error_witness :
    createJobs (parseConst (sampleTask 1 "")) decSample submit202 poll500 =
      (pendingEvents 0 0 ++ [PollEvent.sleep, PollEvent.fetch 0],
       { jobs := none,
         err := some (CreateJobsError.pollFetchError
           ("failed to check async task status: " ++
             ("failed to get async task: " ++ "server blew up"))) }) :=
  createJobs_poll_fetch_error (parseConst (sampleTask 1 "")) decSample submit202 poll500
    "abc123" 0 rfl rfl (by decide) (fun j hj => absurd hj (Nat.not_lt_zero j)) (by decide)

/-- Claim C7: in every polling run whose first non-pending observation is a
task whose state is none of 0, 1, 2, 3, the poller stops at that attempt
and fails with `unknownState` carrying the unrecognized value. -/
theorem createJobs_unknown_state
    (parseTask : String → Except String AsyncTaskResponse)
    (dec : String → Except String (List Job))
    (resp : SubmitResponse) (poll : Nat → PollResponse)
    (rid : String) (k : Nat) (t : AsyncTask)
    (hstatus : resp.statusCode = 202)
    (hloc : extractRequestId resp.location = Except.ok rid)
    (hk : k < 30)
    (hpre : ∀ j, j < k → fetchNonTerminal (fun i => getAsyncTask parseTask (poll i)) j)
    (hfetch : getAsyncTask parseTask (poll k) = Except.ok t)
    (h0 : ¬ t.state = 0) (h1 : ¬ t.state = 1)
    (h2 : ¬ t.state = 2) (h3 : ¬ t.state = 3) :
    createJobs parseTask dec resp poll =
      (pendingEvents 0 k ++ [PollEvent.sleep, PollEvent.fetch k],
       { jobs := none, err := some (CreateJobsError.unknownState t.state) }) := by
  have heq := createJobs_eq_pollFrom parseTask dec resp poll rid hstatus hloc
  have h30 : (30 : Nat) = k + ((29 - k) + 1) := by omega
  have hpre' : ∀ j, j < k →
      fetchNonTerminal (fun i => getAsyncTask parseTask (poll i)) (0 + j) := by
    intro j hj
    simpa using hpre j hj
  have hskip := pollFrom_skip (fun i => getAsyncTask parseTask (poll i)) dec k 0
    ((29 - k) + 1) hpre'
  rw [Nat.zero_add] at hskip
  rw [heq, h30, hskip,
    pollFrom_unknown_step (fun i => getAsyncTask parseTask (poll i)) dec k (29 - k) t
      hfetch h0 h1 h2 h3]

/-- Concrete run for claim C7: the first fetch reports state 7 and the run
fails with the unknown-state error carrying 7. -/
theorem createJobs_unknown_state_witness :
    createJobs (parseConst (sampleTask 7 "x")) decSample submit202 poll200 =
      (pendingEvents 0 0 ++ [PollEvent.sleep, PollEvent.fetch 0],
       { jobs := none, err := some (CreateJobsError.unknownState 7) }) :=
  createJobs_unknown_state (parseConst (sampleTask 7 "x")) decSample submit202 poll200
    "abc123" 0 (sampleTask 7 "x") rfl rfl (by decide)
    (fun j hj => absurd hj (Nat.not_lt_zero j)) rfl
    (by decide) (by decide) (by decide) (by decide)

/-- Claim C2: when every fetch observes a non-terminal state (0 or 1), the
poller performs exactly 30 attempts, each sleeping one second, and then
fails with `timeout`; and in every run it performs at most 30 fetches. -/
theorem createJobs_timeout_after_30
    (parseTask : String → Except String AsyncTaskResponse)
    (dec : String → Except String (List Job))
    (resp : SubmitResponse) (poll : Nat → PollResponse)
    (rid : String)
    (hstatus : resp.statusCode = 202)
    (hloc : extractRequestId resp.location = Except.ok rid) :
    ((∀ j, j < 30 → fetchNonTerminal (fun i => getAsyncTask parseTask (poll i)) j) →
      createJobs parseTask dec resp poll =
        (pendingEvents 0 30, { jobs := none, err := some CreateJobsError.timeout }) ∧
      fetchCount (createJobs parseTask dec resp poll).1 = 30) ∧
    fetchCount (createJobs parseTask dec resp poll).1 ≤ 30 := by
  have heq := createJobs_eq_pollFrom parseTask dec resp poll rid hstatus hloc
  constructor
  · intro hpre
    have hpre' : ∀ j, j < 30 →
        fetchNonTerminal (fun i => getAsyncTask parseTask (poll i)) (0 + j) := by
      intro j hj
      simpa using hpre j hj
    have hskip := pollFrom_skip (fun i => getAsyncTask parseTask (poll i)) dec 30 0 0 hpre'
    rw [Nat.zero_add] at hskip
    have hrun : createJobs parseTask dec resp poll =
        (pendingEvents 0 30, { jobs := none, err := some CreateJobsError.timeout }) := by
      rw [heq]
      have h30 : (30 : Nat) = 30 + 0 := rfl
      rw [h30, hskip]
      simp [pollFrom]
    refine ⟨hrun, ?_⟩
    rw [hrun]
    exact fetchCount_pendingEvents 0 30
  · obtain ⟨m, hm, htr⟩ :=
      pollFrom_trace (fun i => getAsyncTask parseTask (poll i)) dec 30 0
    rw [heq, htr, fetchCount_pendingEvents]
    exact hm

/-- Concrete run for claim C2: every fetch reports state 1, and the run
ends in timeout with the full 30-iteration trace. -/
theorem createJobs_timeout_after_30_witness :
    createJobs (parseConst (sampleTask 1 "")) decSample submit202 poll200 =
      (pendingEvents 0 30, { jobs := none, err := some CreateJobsError.timeout }) :=
  ((createJobs_timeout_after_30 (parseConst (sampleTask 1 "")) decSample submit202 poll200
    "abc123" rfl rfl).1 (fun _ _ => ⟨sampleTask 1 "", rfl, Or.inr rfl⟩)).1

/-- Claim C4 counterexample: the value `"a/b/c"` is non-empty and does not
match the `/resource/requestId` shape (it has no leading slash), yet the
submitter does not fail with `malformedLocationHeader`: it extracts `"c"`
and proceeds. -/
theorem extractRequestId_shape_cex :
    ¬ matchesLocationShape "a/b/c" ∧ "a/b/c" ≠ "" ∧
      extractRequestId "a/b/c" = Except.ok "c" := by
  refine ⟨?_, by decide, rfl⟩
  rintro ⟨r, q, _, _, h⟩
  have hdata : "a/b/c".data = ['a', '/', 'b', '/', 'c'] := rfl
  rw [hdata] at h
  injection h with h1 _
  exact absurd h1 (by decide)

/-- Claim C4 (amended): for every non-empty `Location` value, the submitter
fails with `malformedLocationHeader` exactly when splitting on `/` does not
yield three segments; whenever it yields three segments — whether or not
the value begins with a slash — the third segment becomes the request id
and the run proceeds. -/
theorem extractRequestId_amended (location : String) (hne : location ≠ "") :
    ((∀ a b c, goSplit location '/' ≠ [a, b, c]) →
      extractRequestId location =
        Except.error (CreateJobsError.malformedLocationHeader location)) ∧
    (∀ a b c, goSplit location '/' = [a, b, c] →
      extractRequestId location = Except.ok c) := by
  constructor
  · intro h
    unfold extractRequestId
    rw [if_neg hne]
    cases hsp : goSplit location '/' with
    | nil => rfl
    | cons a l1 =>
        cases l1 with
        | nil => rfl
        | cons b l2 =>
            cases l2 with
            | nil => rfl
            | cons c l3 =>
                cases l3 with
                | nil => exact absurd hsp (h a b c)
                | cons d l4 => rfl
  · intro a b c hsp
    unfold extractRequestId
    rw [if_neg hne, hsp]

/-- Concrete run for the amended claim C4: a well-shaped `Location` yields
its final segment as the request id. -/
theorem extractRequestId_amended_witness :
    extractRequestId "/async-tasks/xyz" = Except.ok "xyz" :=
  (extractRequestId_amended "/async-tasks/xyz" (by decide)).2 "" "async-tasks" "xyz" rfl

/-- Claim C8 counterexample: in the run whose very first fetch already
reports Success, the trace is a sleep followed by a single fetch — the
one-second suspension happens before the first attempt, not between two
attempts, so the suspension does not occur only between attempts. -/
theorem createJobs_sleep_cex :
    sleepsOnlyBetweenFetches
      (createJobs (parseConst (sampleTask 2 "[]")) decSample submit202 poll200).1 = false ∧
    (createJobs (parseConst (sampleTask 2 "[]")) decSample submit202 poll200).1 =
      [PollEvent.sleep, PollEvent.fetch 0] ∧
    (createJobs (parseConst (sampleTask 2 "[]")) decSample submit202 poll200).2.err = none :=
  ⟨rfl, rfl, rfl⟩

/-- Claim C8 (amended): the polling loop records exactly one one-second
sleep immediately before every fetch, the first included, and nothing else:
its trace is an alternation sleep, fetch 0, sleep, fetch 1, …; in
particular, upon observing a non-terminal state with budget remaining, the
poller sleeps one second and proceeds directly to the next fetch. -/
theorem createJobs_trace_alternation
    (parseTask : String → Except String AsyncTaskResponse)
    (dec : String → Except String (List Job))
    (resp : SubmitResponse) (poll : Nat → PollResponse)
    (rid : String)
    (hstatus : resp.statusCode = 202)
    (hloc : extractRequestId resp.location = Except.ok rid) :
    (∃ m, m ≤ 30 ∧ (createJobs parseTask dec resp poll).1 = pendingEvents 0 m ∧
      sleepCount (createJobs parseTask dec resp poll).1 =
        fetchCount (createJobs parseTask dec resp poll).1) ∧
    (∀ k, k + 1 < 30 →
      (∀ j, j ≤ k → fetchNonTerminal (fun i => getAsyncTask parseTask (poll i)) j) →
      ∃ tail, (createJobs parseTask dec resp poll).1 =
        pendingEvents 0 (k + 1) ++ (PollEvent.sleep :: PollEvent.fetch (k + 1) :: tail)) := by
  have heq := createJobs_eq_pollFrom parseTask dec resp poll rid hstatus hloc
  constructor
  · obtain ⟨m, hm, htr⟩ :=
      pollFrom_trace (fun i => getAsyncTask parseTask (poll i)) dec 30 0
    refine ⟨m, hm, ?_, ?_⟩
    · rw [heq, htr]
    · rw [heq, htr, sleepCount_pendingEvents, fetchCount_pendingEvents]
  · intro k hk hpre
    have hpre' : ∀ j, j < k + 1 →
        fetchNonTerminal (fun i => getAsyncTask parseTask (poll i)) (0 + j) := by
      intro j hj
      simpa using hpre j (by omega)
    have hskip := pollFrom_skip (fun i => getAsyncTask parseTask (poll i)) dec (k + 1) 0
      ((28 - k) + 1) hpre'
    rw [Nat.zero_add] at hskip
    have h30 : (30 : Nat) = (k + 1) + ((28 - k) + 1) := by omega
    obtain ⟨tail, htail⟩ :=
      pollFrom_head (fun i => getAsyncTask parseTask (poll i)) dec (k + 1) (28 - k)
    refine ⟨tail, ?_⟩
    rw [heq, h30, hskip]
    simp [htail]

/-- Concrete run for the amended claim C8: the always-in-progress run's
trace is the full 30-pair alternation, with as many sleeps as fetches. -/
theorem createJobs_trace_alternation_witness :
    ∃ m, m ≤ 30 ∧
      (createJobs (parseConst (sampleTask 1 "")) decSample submit202 poll200).1 =
        pendingEvents 0 m ∧
      sleepCount (createJobs (parseConst (sampleTask 1 "")) decSample submit202 poll200).1 =
        fetchCount (createJobs (parseConst (sampleTask 1 "")) decSample submit202 poll200).1 :=
  (createJobs_trace_alternation (parseConst (sampleTask 1 "")) decSample submit202 poll200
    "abc123" rfl rfl).1

/-- Claim C9: every request built by the credential, project and job CRUD
operations, by the bulk-job submitter, and by the async-task poll fetch
carries the three authentication headers `x-api-key`, `x-secret-key` and
`x-account-id`. -/
theorem allRequests_carry_auth_headers
    (host apiKey apiSecret accountID jsonBody requestID : String)
    (credentialID projectID jobID : Nat) (limit offset : Int) :
    carriesAuthHeaders (createCredentialRequest host apiKey apiSecret accountID)
      apiKey apiSecret accountID ∧
    carriesAuthHeaders (getAllCredentialsRequest host apiKey apiSecret accountID limit offset)
      apiKey apiSecret accountID ∧
    carriesAuthHeaders (updateCredentialRequest host apiKey apiSecret accountID credentialID jsonBody)
      apiKey apiSecret accountID ∧
    carriesAuthHeaders (deleteCredentialRequest host apiKey apiSecret accountID credentialID)
      apiKey apiSecret accountID ∧
    carriesAuthHeaders (createProjectRequest host apiKey apiSecret accountID jsonBody)
      apiKey apiSecret accountID ∧
    carriesAuthHeaders (getAllProjectsRequest host apiKey apiSecret accountID limit offset)
      apiKey apiSecret accountID ∧
    carriesAuthHeaders (updateProjectRequest host apiKey apiSecret accountID projectID jsonBody)
      apiKey apiSecret accountID ∧
    carriesAuthHeaders (deleteProjectRequest host apiKey apiSecret accountID projectID)
      apiKey apiSecret accountID ∧
    carriesAuthHeaders (createJobsRequest host apiKey apiSecret accountID jsonBody)
      apiKey apiSecret accountID ∧
    carriesAuthHeaders (getAsyncTaskRequest host apiKey apiSecret accountID requestID)
      apiKey apiSecret accountID ∧
    carriesAuthHeaders (getAllJobsRequest host apiKey apiSecret accountID projectID limit offset)
      apiKey apiSecret accountID ∧
    carriesAuthHeaders (updateJobRequest host apiKey apiSecret accountID jobID jsonBody)
      apiKey apiSecret accountID ∧
    carriesAuthHeaders (deleteJobRequest host apiKey apiSecret accountID jobID)
      apiKey apiSecret accountID := by
  simp [carriesAuthHeaders, createCredentialRequest, getAllCredentialsRequest,
    updateCredentialRequest, deleteCredentialRequest, createProjectRequest,
    getAllProjectsRequest, updateProjectRequest, deleteProjectRequest,
    createJobsRequest, getAsyncTaskRequest, getAllJobsRequest, updateJobRequest,
    deleteJobRequest]

/-- Claim C10: whenever `createJobs` returns an error — from the submission
status, the `Location` handling, a poll fetch, a failed or unknown task
state, output decoding, or timeout — the returned job list is nil. -/
theorem createJobs_error_implies_nil_jobs
    (parseTask : String → Except String AsyncTaskResponse)
    (dec : String → Except String (List Job))
    (resp : SubmitResponse) (poll : Nat → PollResponse)
    (e : CreateJobsError)
    (herr : (createJobs parseTask dec resp poll).2.err = some e) :
    (createJobs parseTask dec resp poll).2.jobs = none := by
  rcases createJobs_exclusive parseTask dec resp poll with h | h
  · exact h
  · rw [h] at herr
    cases herr

/-- Concrete run for claim C10: a rejected submission errs and carries a
nil job list. -/
theorem createJobs_error_implies_nil_jobs_witness :
    (createJobs (parseConst (sampleTask 2 "[]")) decSample submit400 poll200).2.jobs = none :=
  createJobs_error_implies_nil_jobs (parseConst (sampleTask 2 "[]")) decSample
    submit400 poll200 (CreateJobsError.unexpectedStatus "bad request") rfl

